import Mathlib

/-!
Verification of the chat relay backend.

The repository contains two near-duplicate variants of a single Express
handler file:

* `src/server.js` — the "stricter" variant: validates that `messages` is a
  truthy array, checks that `OPENAI_API_KEY` is configured, checks the
  upstream `resp.ok` flag, and substitutes the placeholder with `??`
  (nullish coalescing), token bound 512;
* `src/unnamed/part_000` — the "looser" variant: only requires `messages`
  to be truthy, performs no credential check, parses the upstream body as
  JSON regardless of status, and substitutes the placeholder with `||`
  (logical or), token bound 300.

We embed both handlers as pure functions.  The environment (the value of
`process.env.OPENAI_API_KEY` and the behaviour of the single `fetch` call)
is an explicit input.  JavaScript values are modelled by `JsValue`;
exceptions thrown inside the handler's `try` block are modelled with
`Except String`, and the `catch` clause is the function `catchWrap`.  Each
handler result also records the upstream request that was sent, if any, so
that "no upstream call is made" and the shape of the outbound request are
provable statements.
-/

namespace ChatBot

/-- A JavaScript value, as far as the two handlers can observe one. -/
inductive JsValue where
  | undefined
  | null
  | bool (b : Bool)
  | num (n : Int)
  | str (s : String)
  | arr (xs : List JsValue)
  | obj (fields : List (String × JsValue))

/-- JavaScript truthiness (`!v` is `!truthy v`).  `undefined`, `null`,
`false`, `0` and `""` are falsy; every object and array is truthy. -/
def JsValue.truthy : JsValue → Bool
  | .undefined => false
  | .null => false
  | .bool b => b
  | .num n => n != 0
  | .str s => s != ""
  | .arr _ => true
  | .obj _ => true

/-- `Array.isArray`. -/
def JsValue.isArray : JsValue → Bool
  | .arr _ => true
  | _ => false

/-- `v == null` in the loose sense used by `?.` and `??`:
`undefined` or `null`. -/
def JsValue.nullish : JsValue → Bool
  | .undefined => true
  | .null => true
  | _ => false

/-- Name used in runtime `TypeError` messages for a nullish value. -/
def JsValue.kindName : JsValue → String
  | .undefined => "undefined"
  | .null => "null"
  | _ => "object"

/-- First binding of a key in a JS object literal. -/
def findField : List (String × JsValue) → String → Option JsValue
  | [], _ => none
  | (k, v) :: rest, key => if k = key then some v else findField rest key

/-- Property access `v.k` on a value already known not to be nullish
(accessing a property of a primitive yields `undefined`). -/
def JsValue.prop0 : JsValue → String → JsValue
  | .obj fields, k => (findField fields k).getD .undefined
  | _, _ => .undefined

/-- Index access `v[i]` on a value already known not to be nullish.
Arrays index their elements, strings their characters, objects the
stringified key; other primitives yield `undefined`. -/
def JsValue.idx0 : JsValue → Nat → JsValue
  | .arr xs, i => (xs.get? i).getD .undefined
  | .str s, i => ((s.data.get? i).map fun c => JsValue.str (String.mk [c])).getD .undefined
  | .obj fields, i => (findField fields (toString i)).getD .undefined
  | _, _ => .undefined

/-- `data.choices?.[0]?.message?.content` as written in `server.js`
(line 47).  The first access `data.choices` is not optional, so it throws
a `TypeError` when `data` is nullish; every later access is guarded by
`?.`, which short-circuits the rest of the chain to `undefined`. -/
def chainStrict (data : JsValue) : Except String JsValue :=
  if data.nullish then
    .error ("Cannot read properties of " ++ data.kindName ++ " (reading choices)")
  else
    let c := data.prop0 "choices"
    if c.nullish then .ok .undefined
    else
      let c0 := c.idx0 0
      if c0.nullish then .ok .undefined
      else
        let m := c0.prop0 "message"
        if m.nullish then .ok .undefined
        else .ok (m.prop0 "content")

/-- `data?.choices?.[0]?.message?.content` as written in `part_000`
(line 38): the base is also guarded, so the chain never throws. -/
def chainLoose (data : JsValue) : JsValue :=
  if data.nullish then .undefined
  else
    let c := data.prop0 "choices"
    if c.nullish then .undefined
    else
      let c0 := c.idx0 0
      if c0.nullish then .undefined
      else
        let m := c0.prop0 "message"
        if m.nullish then .undefined
        else m.prop0 "content"

/-- The outbound request built for the single `fetch` call. -/
structure UpstreamReq where
  url : String
  method : String
  contentType : String
  authorization : String
  model : String
  messages : JsValue
  max_tokens : Nat

/-- What the resolved `fetch` response offers the handler: the `ok` flag,
the status, the body read as text (`resp.text()`), and the result of
parsing the body as JSON (`resp.json()`), which may reject. -/
structure UpstreamRes where
  ok : Bool
  status : Nat
  text : String
  json : Except String JsValue

/-- Behaviour of the upstream for the one call the handler makes:
either the promise rejects (network failure) with an error message, or a
response arrives. -/
inductive FetchOutcome where
  | netError (msg : String)
  | success (r : UpstreamRes)

/-- Process environment and upstream behaviour, fixed for one request. -/
structure Env where
  apiKey : Option String
  fetch : FetchOutcome

/-- The body of the HTTP response sent back to the caller. -/
inductive ResBody where
  | text (s : String)
  | errObj (error : String)
  | errDetails (error details : String)
  | replyObj (reply : JsValue)

/-- An HTTP response: status code and JSON (or text) body. -/
structure HttpRes where
  status : Nat
  body : ResBody

/-- Result of one handled request: the HTTP response sent to the caller
and the upstream request that was dispatched, if any. -/
structure HandlerResult where
  res : HttpRes
  upstream : Option UpstreamReq

/-- `!apiKey` on `process.env.OPENAI_API_KEY`: the variable is unset, or
set to the empty string. -/
def missingKey : Option String → Bool
  | none => true
  | some s => s == ""

/-- The request `server.js` lines 27–38 send upstream. -/
def serverUpstreamReq (key : String) (messages : JsValue) : UpstreamReq :=
  { url := "https://api.openai.com/v1/chat/completions"
    method := "POST"
    contentType := "application/json"
    authorization := "Bearer " ++ key
    model := "gpt-4o-mini"
    messages := messages
    max_tokens := 512 }

/-- The request `part_000` lines 24–35 send upstream.  There is no
credential check in this variant; interpolating an unset environment
variable into the template literal produces the text `undefined`. -/
def looseUpstreamReq (apiKey : Option String) (messages : JsValue) : UpstreamReq :=
  { url := "https://api.openai.com/v1/chat/completions"
    method := "POST"
    contentType := "application/json"
    authorization := "Bearer " ++ apiKey.getD "undefined"
    model := "gpt-4o-mini"
    messages := messages
    max_tokens := 300 }

/-- `server.js` lines 40–48: what the stricter handler does with the
outcome of its `fetch` call.  A rejected promise, a rejected
`resp.json()` and a throwing property access all surface as `.error`. -/
def serverFetchPhase : FetchOutcome → Except String HttpRes
  | .netError msg => .error msg
  | .success r =>
    if !r.ok then .ok ⟨502, .errDetails "OpenAI API error" r.text⟩
    else
      match r.json with
      | .error msg => .error msg
      | .ok data =>
        match chainStrict data with
        | .error msg => .error msg
        | .ok content =>
          .ok ⟨200, .replyObj (if content.nullish then .str "No reply generated" else content)⟩

/-- `part_000` lines 37–40: the looser handler parses the body as JSON
regardless of the response status and never consults `r.ok`. -/
def looseFetchPhase : FetchOutcome → Except String HttpRes
  | .netError msg => .error msg
  | .success r =>
    match r.json with
    | .error msg => .error msg
    | .ok data =>
      .ok ⟨200, .replyObj (if (chainLoose data).truthy then chainLoose data else .str "No reply")⟩

/-- The `try` block of the `server.js` `/chat` handler (lines 16–48).
Destructuring `{ messages }` from a nullish body throws.  The second
component records the upstream request sent, if any. -/
def serverChatTry (env : Env) (body : JsValue) : Except String HttpRes × Option UpstreamReq :=
  if body.nullish then
    (.error ("Cannot destructure property messages of req.body as it is " ++ body.kindName),
     none)
  else if !(body.prop0 "messages").truthy || !(body.prop0 "messages").isArray then
    (.ok ⟨400, .errObj "Messages array missing"⟩, none)
  else if missingKey env.apiKey then
    (.ok ⟨500, .errObj "Missing OPENAI_API_KEY in environment"⟩, none)
  else
    (serverFetchPhase env.fetch,
     some (serverUpstreamReq (env.apiKey.getD "") (body.prop0 "messages")))

/-- The `try` block of the `part_000` `/chat` handler (lines 17–41):
only a truthiness check on `messages`, and no credential check. -/
def looseChatTry (env : Env) (body : JsValue) : Except String HttpRes × Option UpstreamReq :=
  if body.nullish then
    (.error ("Cannot destructure property messages of req.body as it is " ++ body.kindName),
     none)
  else if !(body.prop0 "messages").truthy then
    (.ok ⟨400, .errObj "Messages array missing"⟩, none)
  else
    (looseFetchPhase env.fetch,
     some (looseUpstreamReq env.apiKey (body.prop0 "messages")))

/-- The `catch` clause shared by both variants: any exception is turned
into `500 {error: "Server error", details: err.message}`. -/
def catchWrap : Except String HttpRes × Option UpstreamReq → HandlerResult
  | (.ok r, u) => ⟨r, u⟩
  | (.error msg, u) => ⟨⟨500, .errDetails "Server error" msg⟩, u⟩

/-- The complete `POST /chat` handler of `server.js`. -/
def serverChat (env : Env) (body : JsValue) : HandlerResult :=
  catchWrap (serverChatTry env body)

/-- The complete `POST /chat` handler of `part_000`. -/
def looseChat (env : Env) (body : JsValue) : HandlerResult :=
  catchWrap (looseChatTry env body)

/-- The `GET /` handler (identical in both variants): `res.send` with the
default 200 status, independent of the environment. -/
def getRoot (_env : Env) : HttpRes :=
  ⟨200, .text "Chatbot backend is running."⟩

/-- A request body `{messages: msgs}`. -/
def goodBody (msgs : JsValue) : JsValue :=
  .obj [("messages", msgs)]

/-- An upstream completion body whose first choice has message content
`c`: `{choices: [{message: {role: "assistant", content: c}}]}`. -/
def mkCompletion (c : JsValue) : JsValue :=
  .obj [("choices", .arr [.obj [("message",
    .obj [("role", .str "assistant"), ("content", c)])]])]

/-- A successful (`ok`, status 200) upstream response whose parsed JSON
body is `data`. -/
def okRes (data : JsValue) : UpstreamRes :=
  ⟨true, 200, "", .ok data⟩

/-! ## Helper lemmas -/

/-- `catchWrap` never changes which upstream request was sent. -/
theorem catchWrap_upstream (t : Except String HttpRes × Option UpstreamReq) :
    (catchWrap t).upstream = t.2 := by
  obtain ⟨e, u⟩ := t
  cases e <;> rfl

/-- The HTTP response of `catchWrap` depends only on the `try`-block
outcome, not on the recorded upstream request. -/
theorem catchWrap_res_eq (t1 t2 : Except String HttpRes × Option UpstreamReq)
    (h : t1.1 = t2.1) : (catchWrap t1).res = (catchWrap t2).res := by
  obtain ⟨e1, u1⟩ := t1
  obtain ⟨e2, u2⟩ := t2
  have h2 : e1 = e2 := h
  subst h2
  cases e1 <;> rfl

/-- If the `try` block threw, `catchWrap` responds with the generic
500 payload carrying the exception message. -/
theorem catchWrap_error_res (t : Except String HttpRes × Option UpstreamReq) (msg : String)
    (h : t.1 = .error msg) :
    (catchWrap t).res = ⟨500, .errDetails "Server error" msg⟩ := by
  obtain ⟨e, u⟩ := t
  have h2 : e = .error msg := h
  subst h2
  rfl

/-- First component (the HTTP outcome) of the stricter `try` block. -/
theorem serverChatTry_fst (env : Env) (body : JsValue) :
    (serverChatTry env body).1 =
      if body.nullish then
        .error ("Cannot destructure property messages of req.body as it is " ++ body.kindName)
      else if !(body.prop0 "messages").truthy || !(body.prop0 "messages").isArray then
        .ok ⟨400, .errObj "Messages array missing"⟩
      else if missingKey env.apiKey then
        .ok ⟨500, .errObj "Missing OPENAI_API_KEY in environment"⟩
      else serverFetchPhase env.fetch := by
  unfold serverChatTry
  split
  · rfl
  · split
    · rfl
    · split <;> rfl

/-- Second component (the upstream request sent) of the stricter `try`
block. -/
theorem serverChatTry_snd (env : Env) (body : JsValue) :
    (serverChatTry env body).2 =
      if body.nullish then none
      else if !(body.prop0 "messages").truthy || !(body.prop0 "messages").isArray then none
      else if missingKey env.apiKey then none
      else some (serverUpstreamReq (env.apiKey.getD "") (body.prop0 "messages")) := by
  unfold serverChatTry
  split
  · rfl
  · split
    · rfl
    · split <;> rfl

/-- First component (the HTTP outcome) of the looser `try` block. -/
theorem looseChatTry_fst (env : Env) (body : JsValue) :
    (looseChatTry env body).1 =
      if body.nullish then
        .error ("Cannot destructure property messages of req.body as it is " ++ body.kindName)
      else if !(body.prop0 "messages").truthy then
        .ok ⟨400, .errObj "Messages array missing"⟩
      else looseFetchPhase env.fetch := by
  unfold looseChatTry
  split
  · rfl
  · split <;> rfl

/-- Second component (the upstream request sent) of the looser `try`
block. -/
theorem looseChatTry_snd (env : Env) (body : JsValue) :
    (looseChatTry env body).2 =
      if body.nullish then none
      else if !(body.prop0 "messages").truthy then none
      else some (looseUpstreamReq env.apiKey (body.prop0 "messages")) := by
  unfold looseChatTry
  split
  · rfl
  · split <;> rfl

/-! ## Claim C1 -/

/-- Claim C1 as stated fails on the looser variant: `part_000` performs
no credential check at all.  Concretely, with `OPENAI_API_KEY` unset and
a well-formed `messages` array, the looser handler dispatches an upstream
request (with the literal authorization text `Bearer undefined`) and — the
upstream returning a 401 JSON error body — answers `200 {reply: "No
reply"}` rather than a 500 mentioning the credential. -/
theorem looseChat_no_credential_counterexample :
    looseChat ⟨none, .success ⟨false, 401, "unauthorized",
        .ok (.obj [("error", .obj [("message", .str "Incorrect API key provided")])])⟩⟩
      (goodBody (.arr [.obj [("role", .str "user"), ("content", .str "hi")]])) =
      ⟨⟨200, .replyObj (.str "No reply")⟩,
       some (looseUpstreamReq none (.arr [.obj [("role", .str "user"), ("content", .str "hi")]]))⟩ ∧
    (200 : Nat) ≠ 500 := by
  exact ⟨rfl, by decide⟩

/-- Claim C1, amended to the variant that has the check: in `server.js`,
for every request body whose `messages` value is a truthy array, if the
credential is missing (unset or empty), the handler answers
`500 {error: "Missing OPENAI_API_KEY in environment"}` and no upstream
call is made. -/
theorem serverChat_missing_credential_500_no_upstream (env : Env) (body : JsValue)
    (hb : body.nullish = false)
    (hm : (body.prop0 "messages").truthy = true)
    (ha : (body.prop0 "messages").isArray = true)
    (hk : missingKey env.apiKey = true) :
    serverChat env body =
      ⟨⟨500, .errObj "Missing OPENAI_API_KEY in environment"⟩, none⟩ := by
  simp [serverChat, serverChatTry, catchWrap, hb, hm, ha, hk]

/-- Closed instance of the amended C1 theorem. -/
theorem serverChat_missing_credential_500_no_upstream_witness :
    serverChat ⟨none, .netError "x"⟩ (goodBody (.arr [])) =
      ⟨⟨500, .errObj "Missing OPENAI_API_KEY in environment"⟩, none⟩ :=
  serverChat_missing_credential_500_no_upstream ⟨none, .netError "x"⟩
    (goodBody (.arr [])) rfl rfl rfl rfl

/-! ## Claim C2 -/

/-- Claim C2: for every request whose (object) body has no `messages`
field, both variants answer `400 {error: "Messages array missing"}` and
no upstream call is made. -/
theorem chat_no_messages_field_400 (env : Env) (fields : List (String × JsValue))
    (h : findField fields "messages" = none) :
    serverChat env (.obj fields) = ⟨⟨400, .errObj "Messages array missing"⟩, none⟩ ∧
    looseChat env (.obj fields) = ⟨⟨400, .errObj "Messages array missing"⟩, none⟩ := by
  constructor <;>
    simp [serverChat, looseChat, serverChatTry, looseChatTry, catchWrap,
      JsValue.nullish, JsValue.prop0, h, JsValue.truthy]

/-- Closed instance of the C2 theorem. -/
theorem chat_no_messages_field_400_witness :
    serverChat ⟨some "k", .netError "x"⟩ (.obj [("a", .num 1)]) =
      ⟨⟨400, .errObj "Messages array missing"⟩, none⟩ ∧
    looseChat ⟨some "k", .netError "x"⟩ (.obj [("a", .num 1)]) =
      ⟨⟨400, .errObj "Messages array missing"⟩, none⟩ :=
  chat_no_messages_field_400 ⟨some "k", .netError "x"⟩ [("a", .num 1)] rfl

/-! ## Claim C3 -/

/-- Claim C3: in the variant that checks the upstream status
(`server.js`; only that variant has the credential check the claim
presupposes), once validation and the credential check pass, an upstream
response with `ok = false` yields
`502 {error: "OpenAI API error", details: <upstream body text>}` — in
particular `details = "rate limited"` when that is the upstream body. -/
theorem serverChat_upstream_error_502 (env : Env) (msgs : List JsValue) (r : UpstreamRes)
    (hk : missingKey env.apiKey = false)
    (hf : env.fetch = .success r)
    (hok : r.ok = false) :
    serverChat env (goodBody (.arr msgs)) =
      ⟨⟨502, .errDetails "OpenAI API error" r.text⟩,
       some (serverUpstreamReq (env.apiKey.getD "") (.arr msgs))⟩ := by
  simp [serverChat, serverChatTry, serverFetchPhase, catchWrap, goodBody,
    JsValue.nullish, JsValue.prop0, findField, JsValue.truthy, JsValue.isArray,
    hk, hf, hok]

/-- Closed instance of the C3 theorem with upstream body "rate limited". -/
theorem serverChat_upstream_error_502_witness :
    serverChat ⟨some "k", .success ⟨false, 429, "rate limited", .error "parse"⟩⟩
        (goodBody (.arr [])) =
      ⟨⟨502, .errDetails "OpenAI API error" "rate limited"⟩,
       some (serverUpstreamReq "k" (.arr []))⟩ :=
  serverChat_upstream_error_502 ⟨some "k", .success ⟨false, 429, "rate limited", .error "parse"⟩⟩
    [] ⟨false, 429, "rate limited", .error "parse"⟩ rfl rfl rfl

/-! ## Claim C4 -/

/-- Claim C4 as stated fails on the looser variant: when the upstream
completion has first-choice content `""` (a legitimate string content),
`part_000` answers `{reply: "No reply"}` instead of `{reply: ""}`,
because `||` also replaces falsy values. -/
theorem looseChat_empty_content_counterexample :
    looseChat ⟨some "key", .success (okRes (mkCompletion (.str "")))⟩ (goodBody (.arr [])) =
      ⟨⟨200, .replyObj (.str "No reply")⟩, some (looseUpstreamReq (some "key") (.arr []))⟩ ∧
    JsValue.str "No reply" ≠ JsValue.str "" := by
  refine ⟨rfl, ?_⟩
  simp

/-- Claim C4, amended: with a well-formed message array and a configured
credential, an upstream success whose first choice has message content
`c` makes `server.js` answer `200 {reply: c}` for every string `c`, and
makes `part_000` answer `200 {reply: c}` whenever `c` is non-empty. -/
theorem chat_success_reply_content (k : String) (msgs : List JsValue) (c : String)
    (hk : k ≠ "") :
    serverChat ⟨some k, .success (okRes (mkCompletion (.str c)))⟩ (goodBody (.arr msgs)) =
      ⟨⟨200, .replyObj (.str c)⟩, some (serverUpstreamReq k (.arr msgs))⟩ ∧
    (c ≠ "" →
      looseChat ⟨some k, .success (okRes (mkCompletion (.str c)))⟩ (goodBody (.arr msgs)) =
        ⟨⟨200, .replyObj (.str c)⟩, some (looseUpstreamReq (some k) (.arr msgs))⟩) := by
  constructor
  · simp [serverChat, serverChatTry, serverFetchPhase, catchWrap, goodBody, okRes,
      mkCompletion, chainStrict, JsValue.nullish, JsValue.prop0, JsValue.idx0,
      findField, JsValue.truthy, JsValue.isArray, missingKey, hk]
  · intro hc
    simp [looseChat, looseChatTry, looseFetchPhase, catchWrap, goodBody, okRes,
      mkCompletion, chainLoose, JsValue.nullish, JsValue.prop0, JsValue.idx0,
      findField, JsValue.truthy, JsValue.isArray, hc]

/-- Closed instance of the amended C4 theorem at content "hello". -/
theorem chat_success_reply_content_witness :
    serverChat ⟨some "key", .success (okRes (mkCompletion (.str "hello")))⟩
        (goodBody (.arr [])) =
      ⟨⟨200, .replyObj (.str "hello")⟩, some (serverUpstreamReq "key" (.arr []))⟩ ∧
    looseChat ⟨some "key", .success (okRes (mkCompletion (.str "hello")))⟩
        (goodBody (.arr [])) =
      ⟨⟨200, .replyObj (.str "hello")⟩, some (looseUpstreamReq (some "key") (.arr []))⟩ :=
  ⟨(chat_success_reply_content "key" [] "hello" (by decide)).1,
   (chat_success_reply_content "key" [] "hello" (by decide)).2 (by decide)⟩

/-! ## Claim C5 -/

/-- Claim C5: whenever either handler reaches its `fetch` call, the
outbound request targets the completions URL with method POST and JSON
content type, its body carries exactly the hard-coded model
`"gpt-4o-mini"`, the caller-supplied `messages` value unmodified, and
the fixed token bound (512 in `server.js`, 300 in `part_000`); and
whenever a credential `k` is configured it is attached as the bearer
token `"Bearer " ++ k`. -/
theorem chat_upstream_request_shape (env : Env) (body : JsValue) (req : UpstreamReq) :
    ((serverChat env body).upstream = some req →
      req.url = "https://api.openai.com/v1/chat/completions" ∧
      req.method = "POST" ∧
      req.contentType = "application/json" ∧
      req.model = "gpt-4o-mini" ∧
      req.messages = body.prop0 "messages" ∧
      req.max_tokens = 512 ∧
      (∀ k, env.apiKey = some k → req.authorization = "Bearer " ++ k)) ∧
    ((looseChat env body).upstream = some req →
      req.url = "https://api.openai.com/v1/chat/completions" ∧
      req.method = "POST" ∧
      req.contentType = "application/json" ∧
      req.model = "gpt-4o-mini" ∧
      req.messages = body.prop0 "messages" ∧
      req.max_tokens = 300 ∧
      (∀ k, env.apiKey = some k → req.authorization = "Bearer " ++ k)) := by
  constructor
  · intro h
    rw [serverChat, catchWrap_upstream, serverChatTry_snd] at h
    split at h
    · exact Option.noConfusion h
    · split at h
      · exact Option.noConfusion h
      · split at h
        · exact Option.noConfusion h
        · have hreq := Option.some.inj h
          subst hreq
          refine ⟨rfl, rfl, rfl, rfl, rfl, rfl, ?_⟩
          intro k hk
          simp [serverUpstreamReq, hk]
  · intro h
    rw [looseChat, catchWrap_upstream, looseChatTry_snd] at h
    split at h
    · exact Option.noConfusion h
    · split at h
      · exact Option.noConfusion h
      · have hreq := Option.some.inj h
        subst hreq
        refine ⟨rfl, rfl, rfl, rfl, rfl, rfl, ?_⟩
        intro k hk
        simp [looseUpstreamReq, hk]

/-- Closed instance of the C5 theorem, one request per variant. -/
theorem chat_upstream_request_shape_witness :
    (serverChat ⟨some "k", .netError "x"⟩ (goodBody (.arr []))).upstream =
      some (serverUpstreamReq "k" (.arr [])) ∧
    (serverUpstreamReq "k" (.arr [])).max_tokens = 512 ∧
    (serverUpstreamReq "k" (.arr [])).model = "gpt-4o-mini" ∧
    (serverUpstreamReq "k" (.arr [])).authorization = "Bearer " ++ "k" ∧
    (looseChat ⟨some "k", .netError "x"⟩ (goodBody (.arr []))).upstream =
      some (looseUpstreamReq (some "k") (.arr [])) ∧
    (looseUpstreamReq (some "k") (.arr [])).max_tokens = 300 ∧
    (looseUpstreamReq (some "k") (.arr [])).model = "gpt-4o-mini" ∧
    (looseUpstreamReq (some "k") (.arr [])).authorization = "Bearer " ++ "k" :=
  ⟨rfl,
   ((chat_upstream_request_shape ⟨some "k", .netError "x"⟩ (goodBody (.arr []))
      (serverUpstreamReq "k" (.arr []))).1 rfl).2.2.2.2.2.1,
   ((chat_upstream_request_shape ⟨some "k", .netError "x"⟩ (goodBody (.arr []))
      (serverUpstreamReq "k" (.arr []))).1 rfl).2.2.2.1,
   ((chat_upstream_request_shape ⟨some "k", .netError "x"⟩ (goodBody (.arr []))
      (serverUpstreamReq "k" (.arr []))).1 rfl).2.2.2.2.2.2 "k" rfl,
   rfl,
   ((chat_upstream_request_shape ⟨some "k", .netError "x"⟩ (goodBody (.arr []))
      (looseUpstreamReq (some "k") (.arr []))).2 rfl).2.2.2.2.2.1,
   ((chat_upstream_request_shape ⟨some "k", .netError "x"⟩ (goodBody (.arr []))
      (looseUpstreamReq (some "k") (.arr []))).2 rfl).2.2.2.1,
   ((chat_upstream_request_shape ⟨some "k", .netError "x"⟩ (goodBody (.arr []))
      (looseUpstreamReq (some "k") (.arr []))).2 rfl).2.2.2.2.2.2 "k" rfl⟩

/-! ## Claim C6 -/

/-- Claim C6: an upstream success whose JSON body is an object lacking a
`choices` field makes `server.js` answer `200 {reply: "No reply
generated"}` and `part_000` answer `200 {reply: "No reply"}`. -/
theorem chat_missing_choices_placeholder (k : String) (msgs : List JsValue)
    (fields : List (String × JsValue)) (hk : k ≠ "")
    (hc : findField fields "choices" = none) :
    serverChat ⟨some k, .success (okRes (.obj fields))⟩ (goodBody (.arr msgs)) =
      ⟨⟨200, .replyObj (.str "No reply generated")⟩, some (serverUpstreamReq k (.arr msgs))⟩ ∧
    looseChat ⟨some k, .success (okRes (.obj fields))⟩ (goodBody (.arr msgs)) =
      ⟨⟨200, .replyObj (.str "No reply")⟩, some (looseUpstreamReq (some k) (.arr msgs))⟩ := by
  constructor <;>
    simp [serverChat, looseChat, serverChatTry, looseChatTry, serverFetchPhase,
      looseFetchPhase, catchWrap, goodBody, okRes, chainStrict, chainLoose,
      JsValue.nullish, JsValue.prop0, JsValue.idx0, findField, JsValue.truthy,
      JsValue.isArray, missingKey, hk, hc]

/-- Closed instance of the C6 theorem. -/
theorem chat_missing_choices_placeholder_witness :
    serverChat ⟨some "k", .success (okRes (.obj [("id", .str "z")]))⟩ (goodBody (.arr [])) =
      ⟨⟨200, .replyObj (.str "No reply generated")⟩, some (serverUpstreamReq "k" (.arr []))⟩ ∧
    looseChat ⟨some "k", .success (okRes (.obj [("id", .str "z")]))⟩ (goodBody (.arr [])) =
      ⟨⟨200, .replyObj (.str "No reply")⟩, some (looseUpstreamReq (some "k") (.arr []))⟩ :=
  chat_missing_choices_placeholder "k" [] [("id", .str "z")] (by decide) rfl

/-! ## Claim C7 -/

/-- Claim C7: in both variants, every exception the `try` block can raise
(rejected fetch, rejected JSON parse, throwing property access,
destructuring a nullish body) is caught and answered as
`500 {error: "Server error", details: <exception message>}`; the handler
is a total function, so no exception escapes it. -/
theorem chat_catches_all_exceptions (env : Env) (body : JsValue) (msg : String) :
    ((serverChatTry env body).1 = .error msg →
      (serverChat env body).res = ⟨500, .errDetails "Server error" msg⟩) ∧
    ((looseChatTry env body).1 = .error msg →
      (looseChat env body).res = ⟨500, .errDetails "Server error" msg⟩) :=
  ⟨fun h => catchWrap_error_res (serverChatTry env body) msg h,
   fun h => catchWrap_error_res (looseChatTry env body) msg h⟩

/-- Closed instance of the C7 theorem at a rejected fetch. -/
theorem chat_catches_all_exceptions_witness :
    (serverChat ⟨some "k", .netError "fetch failed"⟩ (goodBody (.arr []))).res =
      ⟨500, .errDetails "Server error" "fetch failed"⟩ ∧
    (looseChat ⟨some "k", .netError "fetch failed"⟩ (goodBody (.arr []))).res =
      ⟨500, .errDetails "Server error" "fetch failed"⟩ :=
  ⟨(chat_catches_all_exceptions ⟨some "k", .netError "fetch failed"⟩
      (goodBody (.arr [])) "fetch failed").1 rfl,
   (chat_catches_all_exceptions ⟨some "k", .netError "fetch failed"⟩
      (goodBody (.arr [])) "fetch failed").2 rfl⟩

/-! ## Claim C8 -/

/-- Claim C8: the two variants differ exactly as stated on validation
strictness.  A truthy non-array `messages` value is rejected with 400 and
no upstream call by `server.js`, while `part_000` accepts it and forwards
it upstream unmodified; an absent or falsy `messages` value is rejected
with 400 and no upstream call by both. -/
theorem chat_validation_strictness :
    (∀ (env : Env) (v : JsValue), v.truthy = true → v.isArray = false →
      serverChat env (goodBody v) = ⟨⟨400, .errObj "Messages array missing"⟩, none⟩ ∧
      (looseChat env (goodBody v)).upstream = some (looseUpstreamReq env.apiKey v)) ∧
    (∀ (env : Env) (v : JsValue), v.truthy = false →
      serverChat env (goodBody v) = ⟨⟨400, .errObj "Messages array missing"⟩, none⟩ ∧
      looseChat env (goodBody v) = ⟨⟨400, .errObj "Messages array missing"⟩, none⟩) ∧
    (∀ (env : Env) (fields : List (String × JsValue)), findField fields "messages" = none →
      serverChat env (.obj fields) = ⟨⟨400, .errObj "Messages array missing"⟩, none⟩ ∧
      looseChat env (.obj fields) = ⟨⟨400, .errObj "Messages array missing"⟩, none⟩) := by
  refine ⟨fun env v hv hna => ⟨?_, ?_⟩, fun env v hv => ⟨?_, ?_⟩, fun env fields hf => ⟨?_, ?_⟩⟩
  · simp [serverChat, serverChatTry, catchWrap, goodBody, JsValue.nullish,
      JsValue.prop0, findField, hv, hna]
  · rw [looseChat, catchWrap_upstream, looseChatTry_snd]
    simp [goodBody, JsValue.nullish, JsValue.prop0, findField, hv]
  · simp [serverChat, serverChatTry, catchWrap, goodBody, JsValue.nullish,
      JsValue.prop0, findField, hv]
  · simp [looseChat, looseChatTry, catchWrap, goodBody, JsValue.nullish,
      JsValue.prop0, findField, hv]
  · simp [serverChat, serverChatTry, catchWrap, JsValue.nullish,
      JsValue.prop0, hf, JsValue.truthy]
  · simp [looseChat, looseChatTry, catchWrap, JsValue.nullish,
      JsValue.prop0, hf, JsValue.truthy]

/-- Closed instance of the C8 theorem: a string `messages` value and an
absent `messages` field. -/
theorem chat_validation_strictness_witness :
    serverChat ⟨some "k", .netError "x"⟩ (goodBody (.str "hi")) =
      ⟨⟨400, .errObj "Messages array missing"⟩, none⟩ ∧
    (looseChat ⟨some "k", .netError "x"⟩ (goodBody (.str "hi"))).upstream =
      some (looseUpstreamReq (some "k") (.str "hi")) ∧
    serverChat ⟨some "k", .netError "x"⟩ (goodBody .null) =
      ⟨⟨400, .errObj "Messages array missing"⟩, none⟩ ∧
    looseChat ⟨some "k", .netError "x"⟩ (.obj []) =
      ⟨⟨400, .errObj "Messages array missing"⟩, none⟩ :=
  ⟨(chat_validation_strictness.1 ⟨some "k", .netError "x"⟩ (.str "hi") rfl rfl).1,
   (chat_validation_strictness.1 ⟨some "k", .netError "x"⟩ (.str "hi") rfl rfl).2,
   (chat_validation_strictness.2.1 ⟨some "k", .netError "x"⟩ .null rfl).1,
   (chat_validation_strictness.2.2 ⟨some "k", .netError "x"⟩ [] rfl).2⟩

/-! ## Claim C9 -/

/-- Claim C9, as a noninterference statement: the HTTP response a caller
sees is built only from fixed strings, the upstream body and exception
messages, never from the credential itself — formally, exchanging one
configured (truthy) credential for another while keeping the upstream
behaviour fixed leaves the `server.js` response unchanged, the `part_000`
response does not depend on the credential at all, and `GET /` answers
`200` with the liveness text whatever the environment holds. -/
theorem chat_credential_noninterference :
    (∀ (k1 k2 : String) (f : FetchOutcome) (body : JsValue), k1 ≠ "" → k2 ≠ "" →
      (serverChat ⟨some k1, f⟩ body).res = (serverChat ⟨some k2, f⟩ body).res) ∧
    (∀ (a1 a2 : Option String) (f : FetchOutcome) (body : JsValue),
      (looseChat ⟨a1, f⟩ body).res = (looseChat ⟨a2, f⟩ body).res) ∧
    (∀ env : Env, getRoot env = ⟨200, .text "Chatbot backend is running."⟩) := by
  refine ⟨fun k1 k2 f body hk1 hk2 => ?_, fun a1 a2 f body => ?_, fun env => rfl⟩
  · rw [serverChat, serverChat]
    apply catchWrap_res_eq
    rw [serverChatTry_fst, serverChatTry_fst]
    simp [missingKey, hk1, hk2]
  · rw [looseChat, looseChat]
    apply catchWrap_res_eq
    rw [looseChatTry_fst, looseChatTry_fst]

/-- Closed instance of the C9 theorem. -/
theorem chat_credential_noninterference_witness :
    (serverChat ⟨some "secret-a", .netError "x"⟩ (goodBody (.arr []))).res =
      (serverChat ⟨some "secret-b", .netError "x"⟩ (goodBody (.arr []))).res ∧
    (looseChat ⟨some "secret-a", .netError "x"⟩ (goodBody (.arr []))).res =
      (looseChat ⟨none, .netError "x"⟩ (goodBody (.arr []))).res ∧
    getRoot ⟨none, .netError "x"⟩ = ⟨200, .text "Chatbot backend is running."⟩ :=
  ⟨chat_credential_noninterference.1 "secret-a" "secret-b" (.netError "x")
      (goodBody (.arr [])) (by decide) (by decide),
   chat_credential_noninterference.2.1 (some "secret-a") none (.netError "x")
      (goodBody (.arr [])),
   chat_credential_noninterference.2.2 ⟨none, .netError "x"⟩⟩

/-! ## Claim C10 -/

/-- Claim C10: when the upstream succeeds with first-choice message
content `""`, `server.js` (nullish coalescing) answers `200 {reply: ""}`
while `part_000` (logical or) answers `200 {reply: "No reply"}` — the
placeholder conditions of the two variants are not equivalent. -/
theorem chat_empty_content_divergence (k : String) (msgs : List JsValue) (hk : k ≠ "") :
    (serverChat ⟨some k, .success (okRes (mkCompletion (.str "")))⟩
        (goodBody (.arr msgs))).res = ⟨200, .replyObj (.str "")⟩ ∧
    (looseChat ⟨some k, .success (okRes (mkCompletion (.str "")))⟩
        (goodBody (.arr msgs))).res = ⟨200, .replyObj (.str "No reply")⟩ := by
  constructor
  · simp [serverChat, serverChatTry, serverFetchPhase, catchWrap, goodBody, okRes,
      mkCompletion, chainStrict, JsValue.nullish, JsValue.prop0, JsValue.idx0,
      findField, JsValue.truthy, JsValue.isArray, missingKey, hk]
  · simp [looseChat, looseChatTry, looseFetchPhase, catchWrap, goodBody, okRes,
      mkCompletion, chainLoose, JsValue.nullish, JsValue.prop0, JsValue.idx0,
      findField, JsValue.truthy, JsValue.isArray]

/-- Closed instance of the C10 theorem. -/
theorem chat_empty_content_divergence_witness :
    (serverChat ⟨some "k", .success (okRes (mkCompletion (.str "")))⟩
        (goodBody (.arr []))).res = ⟨200, .replyObj (.str "")⟩ ∧
    (looseChat ⟨some "k", .success (okRes (mkCompletion (.str "")))⟩
        (goodBody (.arr []))).res = ⟨200, .replyObj (.str "No reply")⟩ :=
  chat_empty_content_divergence "k" [] (by decide)

end ChatBot
